import Mathlib

/-
Verification of the torchtune excerpts:
  * torchtune/models/llama2/_model_builders.py - model builder presets
  * recipes/quantize.py - the quantization recipe

The model builders delegate to component builders (llama2, llama2_classifier,
lora_llama2, lora_llama2_classifier) that are outside the excerpt; a built model
is therefore represented by the component-builder call that produced it, i.e. by
the constructor applied together with every argument the builder passes.

The quantization recipe is embedded as a program in a monad recording the trace
of collaborator calls, the filesystem state, and Python exceptions (as strings).
Collaborator behaviour (checkpointer, torch model construction, quantizer
methods, state-dict loading) is supplied as oracle functions.
-/

namespace Torchtune

/-! Model builders, from torchtune/models/llama2/_model_builders.py. -/

inductive LoRAAttnModule
  | q_proj
  | k_proj
  | v_proj
  | output_proj
deriving DecidableEq, Repr

/-- Architecture hyperparameters handed to the llama2 component builders.
`intermediate_dim` is `none` when the builder does not pass it. -/
structure Llama2BaseArgs where
  vocab_size : Nat
  num_layers : Nat
  num_heads : Nat
  num_kv_heads : Nat
  embed_dim : Nat
  intermediate_dim : Option Nat
  max_seq_len : Nat
  attn_dropout : Rat
  norm_eps : Rat
deriving DecidableEq, Repr

/-- LoRA arguments the size-specific builders accept and forward unchanged
(`quantize_base` is kept separate because `partial` pins it). -/
structure LoRAArgs where
  lora_attn_modules : List LoRAAttnModule
  apply_lora_to_mlp : Bool
  apply_lora_to_output : Bool
  lora_rank : Nat
  lora_alpha : Rat
  lora_dropout : Rat
  use_dora : Bool
deriving DecidableEq, Repr

/-- A built model, identified by the component-builder call that produced it. -/
inductive TransformerDecoder
  | llama2 (args : Llama2BaseArgs)
  | llama2_classifier (num_classes : Nat) (args : Llama2BaseArgs)
  | lora_llama2 (lora : LoRAArgs) (quantize_base : Bool) (args : Llama2BaseArgs)
  | lora_llama2_classifier (lora : LoRAArgs) (quantize_base : Bool) (num_classes : Nat)
      (args : Llama2BaseArgs)
deriving DecidableEq, Repr

def TransformerDecoder.baseArgs : TransformerDecoder → Llama2BaseArgs
  | .llama2 a => a
  | .llama2_classifier _ a => a
  | .lora_llama2 _ _ a => a
  | .lora_llama2_classifier _ _ _ a => a

def TransformerDecoder.numClasses : TransformerDecoder → Option Nat
  | .llama2_classifier n _ => some n
  | .lora_llama2_classifier _ _ n _ => some n
  | _ => none

def llama2_7b : TransformerDecoder :=
  .llama2
    { vocab_size := 32000, num_layers := 32, num_heads := 32, num_kv_heads := 32,
      embed_dim := 4096, intermediate_dim := none, max_seq_len := 4096,
      attn_dropout := 0, norm_eps := 1 / 100000 }

def lora_llama2_7b (lora : LoRAArgs) (quantize_base : Bool) : TransformerDecoder :=
  .lora_llama2 lora quantize_base
    { vocab_size := 32000, num_layers := 32, num_heads := 32, num_kv_heads := 32,
      embed_dim := 4096, intermediate_dim := none, max_seq_len := 4096,
      attn_dropout := 0, norm_eps := 1 / 100000 }

def qlora_llama2_7b (lora : LoRAArgs) : TransformerDecoder :=
  lora_llama2_7b lora true

def llama2_13b : TransformerDecoder :=
  .llama2
    { vocab_size := 32000, num_layers := 40, num_heads := 40, num_kv_heads := 40,
      embed_dim := 5120, intermediate_dim := some 13824, max_seq_len := 4096,
      attn_dropout := 0, norm_eps := 1 / 100000 }

def lora_llama2_13b (lora : LoRAArgs) (quantize_base : Bool) : TransformerDecoder :=
  .lora_llama2 lora quantize_base
    { vocab_size := 32000, num_layers := 40, num_heads := 40, num_kv_heads := 40,
      embed_dim := 5120, intermediate_dim := some 13824, max_seq_len := 4096,
      attn_dropout := 0, norm_eps := 1 / 100000 }

def qlora_llama2_13b (lora : LoRAArgs) : TransformerDecoder :=
  lora_llama2_13b lora true

def llama2_70b : TransformerDecoder :=
  .llama2
    { vocab_size := 32000, num_layers := 80, num_heads := 64, num_kv_heads := 8,
      embed_dim := 8192, intermediate_dim := some 28672, max_seq_len := 4096,
      attn_dropout := 0, norm_eps := 1 / 100000 }

def lora_llama2_70b (lora : LoRAArgs) (quantize_base : Bool) : TransformerDecoder :=
  .lora_llama2 lora quantize_base
    { vocab_size := 32000, num_layers := 80, num_heads := 64, num_kv_heads := 8,
      embed_dim := 8192, intermediate_dim := some 28672, max_seq_len := 4096,
      attn_dropout := 0, norm_eps := 1 / 100000 }

def qlora_llama2_70b (lora : LoRAArgs) : TransformerDecoder :=
  lora_llama2_70b lora true

def llama2_reward_7b : TransformerDecoder :=
  .llama2_classifier 1
    { vocab_size := 32000, num_layers := 32, num_heads := 32, num_kv_heads := 32,
      embed_dim := 4096, intermediate_dim := none, max_seq_len := 4096,
      attn_dropout := 0, norm_eps := 1 / 100000 }

def lora_llama2_reward_7b (lora : LoRAArgs) (quantize_base : Bool) : TransformerDecoder :=
  .lora_llama2_classifier lora quantize_base 1
    { vocab_size := 32000, num_layers := 32, num_heads := 32, num_kv_heads := 32,
      embed_dim := 4096, intermediate_dim := none, max_seq_len := 4096,
      attn_dropout := 0, norm_eps := 1 / 100000 }

/-- Source line 375: `qlora_llama2_reward_7b = partial(lora_llama2_7b, quantize_base=True)`.
The wrapped builder really is `lora_llama2_7b`, not `lora_llama2_reward_7b`. -/
def qlora_llama2_reward_7b (lora : LoRAArgs) : TransformerDecoder :=
  lora_llama2_7b lora true

/-! Quantization recipe, from recipes/quantize.py. -/

/-- Python exceptions are carried as their message strings. -/
abbrev Err := String

inductive Dtype
  | fp32
  | bf16
  | fp16
deriving DecidableEq, Repr

/-- An abstract tensor: its dtype and an opaque payload standing for the data. -/
structure Param where
  dtype : Dtype
  data : Nat
deriving DecidableEq, Repr

/-- Named parameters; both a model's `named_parameters()` and its `state_dict()`. -/
abbrev StateDict := List (String × Param)

abbrev Model := StateDict

/-- Modelled from the spec: `torchtune.training.get_quantizer_mode` is not among the
source excerpts.  The recipe docstring lists the supported quantization modes as
`8da4w` (Int8DynActInt4WeightQuantizer) and `8da4w-qat`
(Int8DynActInt4WeightQATQuantizer); the mode is determined by the quantizer class. -/
inductive Quantizer
  | int8DynActInt4Weight
  | int8DynActInt4WeightQAT
deriving DecidableEq, Repr

def get_quantizer_mode : Quantizer → String
  | .int8DynActInt4Weight => "8da4w"
  | .int8DynActInt4WeightQAT => "8da4w-qat"

/-- The `checkpointer` section of the config; paths are lists of components. -/
structure CheckpointerConfig where
  checkpoint_files : List String
  output_dir : List String
deriving DecidableEq, Repr

structure Config where
  device : String
  dtype : Dtype
  seed : Nat
  quantizer : Quantizer
  checkpointer : CheckpointerConfig
deriving DecidableEq, Repr

/-- Oracles for the external collaborators the recipe calls into. -/
structure Collaborators where
  load_checkpoint : Except Err (List (String × StateDict))
  instantiate_model : Except Err Model
  prepare : Model → Except Err Model
  convert : Model → Except Err Model
  quantize : Model → Except Err Model
  load_state_dict : Model → StateDict → Except Err Model

/-- One collaborator call (or filesystem effect) performed by the recipe. -/
inductive Event
  | set_seed (seed : Nat)
  | load_checkpoint
  | instantiate_model
  | quantizer_prepare
  | load_state_dict
  | validate_dtype
  | quantizer_convert
  | quantizer_quantize
  | mkdir (path : List String)
  | save_file (path : List String) (contents : StateDict)
deriving DecidableEq, Repr

/-- The filesystem: existing directories and files with their contents. -/
structure FS where
  dirs : List (List String)
  files : List (List String × StateDict)
deriving DecidableEq, Repr

/-- The empty path stands for the working directory, which always exists. -/
def FS.dirExists (fs : FS) (p : List String) : Bool :=
  p.isEmpty || fs.dirs.contains p

/-- Semantics of `Path.mkdir(exist_ok=True)` (with the default `parents=False`):
no-op when the directory exists, create it when its parent exists, raise
`FileNotFoundError` otherwise. -/
def FS.mkdir_exist_ok (fs : FS) (p : List String) : Except Err FS :=
  if fs.dirExists p then .ok fs
  else if fs.dirExists p.dropLast then .ok { fs with dirs := p :: fs.dirs }
  else .error "FileNotFoundError"

/-- Semantics of `torch.save`: newest entry first. -/
def FS.write_file (fs : FS) (p : List String) (d : StateDict) : FS :=
  { fs with files := (p, d) :: fs.files }

def FS.read_file (fs : FS) (p : List String) : Option StateDict :=
  (fs.files.find? fun q => q.1 == p).map (·.2)

/-- Outcome of running a recipe step: the trace of collaborator calls it made,
the filesystem afterwards, and its result or the propagated exception. -/
structure RunResult (α : Type) where
  trace : List Event
  fs : FS
  out : Except Err α
deriving Repr

def RecipeM (α : Type) : Type := FS → RunResult α

def RecipeM.pureImpl (a : α) : RecipeM α := fun fs => ⟨[], fs, .ok a⟩

def RecipeM.bindImpl (x : RecipeM α) (f : α → RecipeM β) : RecipeM β := fun fs =>
  let r := x fs
  match r.out with
  | .error e => ⟨r.trace, r.fs, .error e⟩
  | .ok a =>
    let r2 := f a r.fs
    ⟨r.trace ++ r2.trace, r2.fs, r2.out⟩

instance : Monad RecipeM where
  pure := RecipeM.pureImpl
  bind := RecipeM.bindImpl

/-- A collaborator call: record the event, return the oracle's verdict. -/
def call (ev : Event) (x : Except Err α) : RecipeM α := fun fs => ⟨[ev], fs, x⟩

/-- A pure computation that may raise (e.g. a dict or list subscript). -/
def liftE (x : Except Err α) : RecipeM α := fun fs => ⟨[], fs, x⟩

def mkdir_m (p : List String) : RecipeM Unit := fun fs =>
  match fs.mkdir_exist_ok p with
  | .ok fs2 => ⟨[.mkdir p], fs2, .ok ()⟩
  | .error e => ⟨[.mkdir p], fs, .error e⟩

def save_m (p : List String) (d : StateDict) : RecipeM Unit := fun fs =>
  ⟨[.save_file p d], fs.write_file p d, .ok ()⟩

/-! Python string and path helpers used by `save_checkpoint`. -/

/-- Python `str.rstrip(chars)`: drop trailing characters belonging to the set. -/
def rstrip_chars (cs : List Char) (strip : List Char) : List Char :=
  ((cs.reverse.dropWhile fun c => strip.contains c).reverse)

def py_rstrip (s : String) (strip : String) : String :=
  ⟨rstrip_chars s.data strip.data⟩

/-- Python `s.split(".")[0]`: the text before the first dot. -/
def split_dot_head (s : String) : String :=
  ⟨s.data.takeWhile fun c => !(c == '.')⟩

/-- Characters strictly before the last dot, or `none` when there is no dot. -/
def drop_after_last_dot : List Char → Option (List Char)
  | [] => none
  | c :: cs =>
    match drop_after_last_dot cs with
    | some res => some (c :: res)
    | none => if c = '.' then some [] else none

/-- `PurePath.with_suffix`: replace the extension after the last dot, or append
when the name has no extension (a lone leading dot is not an extension). -/
def with_suffix (name : String) (suffix : String) : String :=
  match drop_after_last_dot name.data with
  | some pre => if pre.isEmpty then ⟨name.data ++ suffix.data⟩ else ⟨pre ++ suffix.data⟩
  | none => ⟨name.data ++ suffix.data⟩

def starts_with : List Char → List Char → Bool
  | [], _ => true
  | _ :: _, [] => false
  | a :: as, b :: bs => a == b && starts_with as bs

def has_substr (needle : List Char) : List Char → Bool
  | [] => needle.isEmpty
  | c :: cs => starts_with needle (c :: cs) || has_substr needle cs

/-- Python `"qat" in mode`. -/
def mode_has_qat (mode : String) : Bool :=
  has_substr "qat".data mode.data

/-- The value of `torchtune.training.MODEL_KEY`. -/
def MODEL_KEY : String := "model"

/-- Python `d[key]` on a string-keyed dict, raising `KeyError` when absent. -/
def dict_get (d : List (String × StateDict)) (key : String) : Except Err StateDict :=
  match d.find? fun q => q.1 == key with
  | some q => .ok q.2
  | none => .error "KeyError"

/-- Modelled from the spec: `torchtune.training.validate_expected_param_dtype` is not
among the source excerpts; per the spec, dtype mismatches propagate as the framework's
own error, so it raises exactly when some named parameter's dtype differs from the
expected dtype. -/
def validate_expected_param_dtype (named_parameters : List (String × Param))
    (dtype : Dtype) : Except Err Unit :=
  if named_parameters.all fun p => decide (p.2.dtype = dtype) then .ok ()
  else .error "ValueError: unexpected dtype"

/-! The recipe itself. -/

/-- The fields of `QuantizationRecipe` the excerpt reads back. -/
structure RecipeState where
  dtype : Dtype
  quantization_mode : String
  model : Option Model
deriving Repr

/-- `QuantizationRecipe.__init__`: resolve device and dtype, instantiate the
quantizer, derive its mode, and finally seed the random state from `cfg.seed`. -/
def QuantizationRecipe.init (cfg : Config) : RecipeM RecipeState := do
  let st : RecipeState :=
    { dtype := cfg.dtype
      quantization_mode := get_quantizer_mode cfg.quantizer
      model := none }
  call (.set_seed cfg.seed) (.ok ())
  return st

/-- `QuantizationRecipe.load_checkpoint`: instantiate the checkpointer from the
config and call its `load_checkpoint`. -/
def QuantizationRecipe.load_checkpoint_call (C : Collaborators) :
    RecipeM (List (String × StateDict)) :=
  call .load_checkpoint C.load_checkpoint

/-- The line `if "qat" in self._quantization_mode: model = self._quantizer.prepare(model)`
of `_setup_model`. -/
def QuantizationRecipe.prepare_step (C : Collaborators) (st : RecipeState)
    (model : Model) : RecipeM Model :=
  if mode_has_qat st.quantization_mode then
    call .quantizer_prepare (C.prepare model)
  else
    pure model

/-- `QuantizationRecipe._setup_model`: instantiate the model, run the quantizer's
`prepare` when the mode mentions qat, load the state dict, validate dtypes. -/
def QuantizationRecipe.setup_model (C : Collaborators) (st : RecipeState)
    (model_state_dict : StateDict) : RecipeM Model := do
  let model ← call .instantiate_model C.instantiate_model
  let model ← QuantizationRecipe.prepare_step C st model
  let model ← call .load_state_dict (C.load_state_dict model model_state_dict)
  let _ ← call .validate_dtype (validate_expected_param_dtype model st.dtype)
  return model

/-- `QuantizationRecipe.setup`: load the checkpoint, take its model entry,
build the model from it. -/
def QuantizationRecipe.setup (C : Collaborators) (st : RecipeState) :
    RecipeM RecipeState := do
  let ckpt_dict ← QuantizationRecipe.load_checkpoint_call C
  let sd ← liftE (dict_get ckpt_dict MODEL_KEY)
  let model ← QuantizationRecipe.setup_model C st sd
  return { st with model := some model }

/-- The branch of `QuantizationRecipe.quantize`: `convert` when the mode mentions
qat, otherwise `quantize`. -/
def QuantizationRecipe.quantize_dispatch (C : Collaborators) (st : RecipeState)
    (m : Model) : RecipeM Model :=
  if mode_has_qat st.quantization_mode then
    call .quantizer_convert (C.convert m)
  else
    call .quantizer_quantize (C.quantize m)

/-- `QuantizationRecipe.quantize`. -/
def QuantizationRecipe.quantize (C : Collaborators) (st : RecipeState) :
    RecipeM RecipeState := do
  let m ← liftE (match st.model with
    | some m => .ok m
    | none => .error "AttributeError: _model")
  let m2 ← QuantizationRecipe.quantize_dispatch C st m
  return { st with model := some m2 }

/-- The checkpoint file name `save_checkpoint` computes:
`joinpath(output_dir, f"(file_name)-(mode)".rstrip("-qat")).with_suffix(".ckpt")`
with `file_name = checkpoint_files[0].split(".")[0]`. -/
def checkpoint_file_name (cfg : Config) (mode : String) : Except Err String :=
  match cfg.checkpointer.checkpoint_files with
  | [] => .error "IndexError"
  | f :: _ =>
    .ok (with_suffix (py_rstrip (split_dot_head f ++ "-" ++ mode) "-qat") ".ckpt")

/-- `QuantizationRecipe.save_checkpoint`: take the model's state dict, compute the
output file name, create the output directory, and `torch.save` the state dict. -/
def QuantizationRecipe.save_checkpoint (cfg : Config) (st : RecipeState) :
    RecipeM Unit := do
  let ckpt_dict ← liftE (match st.model with
    | some m => .ok m
    | none => .error "AttributeError: _model")
  let fname ← liftE (checkpoint_file_name cfg st.quantization_mode)
  mkdir_m cfg.checkpointer.output_dir
  save_m (cfg.checkpointer.output_dir ++ [fname]) ckpt_dict

/-- `main`: construct the recipe, then `setup`, `quantize`, `save_checkpoint`. -/
def main (cfg : Config) (C : Collaborators) : RecipeM Unit := do
  let st ← QuantizationRecipe.init cfg
  let st ← QuantizationRecipe.setup C st
  let st ← QuantizationRecipe.quantize C st
  QuantizationRecipe.save_checkpoint cfg st

/-- Spec-side file-stem computation: the quantization mode with one trailing
`-qat` suffix removed. -/
def strip_qat_suffix (mode : String) : String :=
  if starts_with "-qat".data.reverse mode.data.reverse then
    ⟨mode.data.take (mode.data.length - 4)⟩
  else mode

/-! Concrete demonstration data used by the witness theorems. -/

def demo_param : Param := { dtype := .fp32, data := 7 }

def demo_model : Model := [("weight", demo_param)]

def demo_collab : Collaborators :=
  { load_checkpoint := .ok [("model", demo_model)]
    instantiate_model := .ok demo_model
    prepare := fun m => .ok m
    convert := fun m => .ok m
    quantize := fun m => .ok m
    load_state_dict := fun _ sd => .ok sd }

def demo_cfg : Config :=
  { device := "cpu", dtype := .fp32, seed := 1234
    quantizer := .int8DynActInt4Weight
    checkpointer :=
      { checkpoint_files := ["llama2-checkpoint-01.pt"], output_dir := ["out"] } }

def demo_cfg_qat : Config :=
  { demo_cfg with quantizer := .int8DynActInt4WeightQAT }

def demo_fs : FS := { dirs := [], files := [] }

def demo_state : RecipeState :=
  { dtype := .fp32, quantization_mode := "8da4w", model := some demo_model }

def demo_state_qat : RecipeState :=
  { demo_state with quantization_mode := "8da4w-qat" }

def demo_lora_args : LoRAArgs :=
  { lora_attn_modules := [.q_proj], apply_lora_to_mlp := false,
    apply_lora_to_output := false, lora_rank := 8, lora_alpha := 16,
    lora_dropout := 0, use_dora := false }

/-- The recipe state right after `__init__` on `demo_cfg`. -/
def demo_state0 : RecipeState :=
  { dtype := .fp32, quantization_mode := "8da4w", model := none }

/-- Collaborators whose checkpoint load fails. -/
def demo_collab_fail : Collaborators :=
  { demo_collab with load_checkpoint := .error "OSError: missing file" }

/-- Collaborators whose loaded parameters carry an unexpected dtype. -/
def demo_collab_baddtype : Collaborators :=
  { demo_collab with
    load_state_dict := fun _ _ => .ok [("weight", { dtype := .bf16, data := 1 })] }

/-! Run lemmas for the recipe monad. -/

theorem run_pure (a : α) (fs : FS) : (pure a : RecipeM α) fs = ⟨[], fs, .ok a⟩ := rfl

theorem run_call (ev : Event) (x : Except Err α) (fs : FS) :
    call ev x fs = ⟨[ev], fs, x⟩ := rfl

theorem run_liftE (x : Except Err α) (fs : FS) : liftE x fs = ⟨[], fs, x⟩ := rfl

theorem run_bind_ok (x : RecipeM α) (f : α → RecipeM β) (fs : FS) (a : α)
    (h : (x fs).out = .ok a) :
    (x >>= f) fs =
      ⟨(x fs).trace ++ (f a (x fs).fs).trace, (f a (x fs).fs).fs, (f a (x fs).fs).out⟩ := by
  show RecipeM.bindImpl x f fs = _
  unfold RecipeM.bindImpl
  simp only [h]

theorem run_bind_error (x : RecipeM α) (f : α → RecipeM β) (fs : FS) (e : Err)
    (h : (x fs).out = .error e) :
    (x >>= f) fs = ⟨(x fs).trace, (x fs).fs, .error e⟩ := by
  show RecipeM.bindImpl x f fs = _
  unfold RecipeM.bindImpl
  simp only [h]

theorem run_mkdir_ok (p : List String) (fs fs2 : FS)
    (h : fs.mkdir_exist_ok p = .ok fs2) :
    mkdir_m p fs = ⟨[.mkdir p], fs2, .ok ()⟩ := by
  unfold mkdir_m
  simp only [h]

theorem run_mkdir_error (p : List String) (fs : FS) (e : Err)
    (h : fs.mkdir_exist_ok p = .error e) :
    mkdir_m p fs = ⟨[.mkdir p], fs, .error e⟩ := by
  unfold mkdir_m
  simp only [h]

theorem run_save (p : List String) (d : StateDict) (fs : FS) :
    save_m p d fs = ⟨[.save_file p d], fs.write_file p d, .ok ()⟩ := rfl

theorem bind_out_ok (x : RecipeM α) (f : α → RecipeM β) (fs : FS) (b : β)
    (h : ((x >>= f) fs).out = .ok b) :
    ∃ a, (x fs).out = .ok a ∧ (f a (x fs).fs).out = .ok b := by
  rw [show (x >>= f) fs = RecipeM.bindImpl x f fs from rfl] at h
  unfold RecipeM.bindImpl at h
  cases hx : (x fs).out with
  | error e =>
    simp only [hx] at h
    exact Except.noConfusion h
  | ok a =>
    simp only [hx] at h
    exact ⟨a, rfl, h⟩

/-- The step never modifies the filesystem. -/
def PreservesFS (x : RecipeM α) : Prop := ∀ fs, (x fs).fs = fs

theorem preservesFS_call (ev : Event) (x : Except Err α) : PreservesFS (call ev x) :=
  fun _ => rfl

theorem preservesFS_liftE (x : Except Err α) : PreservesFS (liftE x) := fun _ => rfl

theorem preservesFS_pure (a : α) : PreservesFS (pure a : RecipeM α) := fun _ => rfl

theorem preservesFS_bind (x : RecipeM α) (f : α → RecipeM β)
    (hx : PreservesFS x) (hf : ∀ a, PreservesFS (f a)) : PreservesFS (x >>= f) := by
  intro fs
  show (RecipeM.bindImpl x f fs).fs = fs
  unfold RecipeM.bindImpl
  cases hout : (x fs).out with
  | error e => simp only [hout]; exact hx fs
  | ok a => simp only [hout]; rw [hx fs]; exact hf a fs

theorem preservesFS_prepare_step (C : Collaborators) (st : RecipeState) (m : Model) :
    PreservesFS (QuantizationRecipe.prepare_step C st m) := by
  intro fs
  unfold QuantizationRecipe.prepare_step
  split
  · rfl
  · rfl

theorem preservesFS_quantize_dispatch (C : Collaborators) (st : RecipeState) (m : Model) :
    PreservesFS (QuantizationRecipe.quantize_dispatch C st m) := by
  intro fs
  unfold QuantizationRecipe.quantize_dispatch
  split
  · rfl
  · rfl

theorem preservesFS_init (cfg : Config) : PreservesFS (QuantizationRecipe.init cfg) :=
  preservesFS_bind _ _ (preservesFS_call _ _) fun _ => preservesFS_pure _

theorem preservesFS_setup_model (C : Collaborators) (st : RecipeState) (sd : StateDict) :
    PreservesFS (QuantizationRecipe.setup_model C st sd) := by
  refine preservesFS_bind _ _ (preservesFS_call _ _) fun m0 => ?_
  refine preservesFS_bind _ _ (preservesFS_prepare_step C st m0) fun m1 => ?_
  refine preservesFS_bind _ _ (preservesFS_call _ _) fun m2 => ?_
  exact preservesFS_bind _ _ (preservesFS_call _ _) fun _ => preservesFS_pure _

theorem preservesFS_setup (C : Collaborators) (st : RecipeState) :
    PreservesFS (QuantizationRecipe.setup C st) := by
  refine preservesFS_bind _ _ (preservesFS_call _ _) fun ckpt => ?_
  refine preservesFS_bind _ _ (preservesFS_liftE _) fun sd => ?_
  exact preservesFS_bind _ _ (preservesFS_setup_model C st sd) fun m => preservesFS_pure _

theorem preservesFS_quantize (C : Collaborators) (st : RecipeState) :
    PreservesFS (QuantizationRecipe.quantize C st) := by
  refine preservesFS_bind _ _ (preservesFS_liftE _) fun m => ?_
  exact preservesFS_bind _ _ (preservesFS_quantize_dispatch C st m) fun m2 =>
    preservesFS_pure _

/-! Forward run lemmas: explicit results of each step under pinned oracle verdicts. -/

theorem run_init (cfg : Config) (fs : FS) :
    QuantizationRecipe.init cfg fs =
      ⟨[.set_seed cfg.seed], fs,
        .ok { dtype := cfg.dtype,
              quantization_mode := get_quantizer_mode cfg.quantizer,
              model := none }⟩ := rfl

theorem run_prepare_step_qat (C : Collaborators) (st : RecipeState) (m : Model) (fs : FS)
    (hq : mode_has_qat st.quantization_mode = true) :
    QuantizationRecipe.prepare_step C st m fs = ⟨[.quantizer_prepare], fs, C.prepare m⟩ := by
  simp [QuantizationRecipe.prepare_step, hq, call]

theorem run_prepare_step_noqat (C : Collaborators) (st : RecipeState) (m : Model) (fs : FS)
    (hq : mode_has_qat st.quantization_mode = false) :
    QuantizationRecipe.prepare_step C st m fs = ⟨[], fs, .ok m⟩ := by
  simp [QuantizationRecipe.prepare_step, hq]
  rfl

theorem run_quantize_dispatch_qat (C : Collaborators) (st : RecipeState) (m : Model)
    (fs : FS) (hq : mode_has_qat st.quantization_mode = true) :
    QuantizationRecipe.quantize_dispatch C st m fs =
      ⟨[.quantizer_convert], fs, C.convert m⟩ := by
  simp [QuantizationRecipe.quantize_dispatch, hq, call]

theorem run_quantize_dispatch_noqat (C : Collaborators) (st : RecipeState) (m : Model)
    (fs : FS) (hq : mode_has_qat st.quantization_mode = false) :
    QuantizationRecipe.quantize_dispatch C st m fs =
      ⟨[.quantizer_quantize], fs, C.quantize m⟩ := by
  simp [QuantizationRecipe.quantize_dispatch, hq, call]

theorem run_setup_model_noqat (C : Collaborators) (st : RecipeState) (sd : StateDict)
    (fs : FS) (m0 m2 : Model)
    (hq : mode_has_qat st.quantization_mode = false)
    (h0 : C.instantiate_model = .ok m0)
    (h1 : C.load_state_dict m0 sd = .ok m2)
    (h2 : validate_expected_param_dtype m2 st.dtype = .ok ()) :
    QuantizationRecipe.setup_model C st sd fs =
      ⟨[.instantiate_model, .load_state_dict, .validate_dtype], fs, .ok m2⟩ := by
  simp [QuantizationRecipe.setup_model, QuantizationRecipe.prepare_step,
    Bind.bind, RecipeM.bindImpl, Pure.pure, RecipeM.pureImpl, call, liftE,
    hq, h0, h1, h2]

theorem run_setup_model_qat (C : Collaborators) (st : RecipeState) (sd : StateDict)
    (fs : FS) (m0 m1 m2 : Model)
    (hq : mode_has_qat st.quantization_mode = true)
    (h0 : C.instantiate_model = .ok m0)
    (hp : C.prepare m0 = .ok m1)
    (h1 : C.load_state_dict m1 sd = .ok m2)
    (h2 : validate_expected_param_dtype m2 st.dtype = .ok ()) :
    QuantizationRecipe.setup_model C st sd fs =
      ⟨[.instantiate_model, .quantizer_prepare, .load_state_dict, .validate_dtype],
        fs, .ok m2⟩ := by
  simp [QuantizationRecipe.setup_model, QuantizationRecipe.prepare_step,
    Bind.bind, RecipeM.bindImpl, Pure.pure, RecipeM.pureImpl, call, liftE,
    hq, h0, hp, h1, h2]

theorem run_setup_noqat (C : Collaborators) (st : RecipeState) (fs : FS)
    (ckpt : List (String × StateDict)) (sd : StateDict) (m0 m2 : Model)
    (hq : mode_has_qat st.quantization_mode = false)
    (hc : C.load_checkpoint = .ok ckpt)
    (hk : dict_get ckpt MODEL_KEY = .ok sd)
    (h0 : C.instantiate_model = .ok m0)
    (h1 : C.load_state_dict m0 sd = .ok m2)
    (h2 : validate_expected_param_dtype m2 st.dtype = .ok ()) :
    QuantizationRecipe.setup C st fs =
      ⟨[.load_checkpoint, .instantiate_model, .load_state_dict, .validate_dtype],
        fs, .ok { st with model := some m2 }⟩ := by
  simp [QuantizationRecipe.setup, QuantizationRecipe.load_checkpoint_call,
    Bind.bind, RecipeM.bindImpl, Pure.pure, RecipeM.pureImpl, call, liftE,
    hc, hk, run_setup_model_noqat C st sd fs m0 m2 hq h0 h1 h2]

theorem run_setup_qat (C : Collaborators) (st : RecipeState) (fs : FS)
    (ckpt : List (String × StateDict)) (sd : StateDict) (m0 m1 m2 : Model)
    (hq : mode_has_qat st.quantization_mode = true)
    (hc : C.load_checkpoint = .ok ckpt)
    (hk : dict_get ckpt MODEL_KEY = .ok sd)
    (h0 : C.instantiate_model = .ok m0)
    (hp : C.prepare m0 = .ok m1)
    (h1 : C.load_state_dict m1 sd = .ok m2)
    (h2 : validate_expected_param_dtype m2 st.dtype = .ok ()) :
    QuantizationRecipe.setup C st fs =
      ⟨[.load_checkpoint, .instantiate_model, .quantizer_prepare, .load_state_dict,
        .validate_dtype], fs, .ok { st with model := some m2 }⟩ := by
  simp [QuantizationRecipe.setup, QuantizationRecipe.load_checkpoint_call,
    Bind.bind, RecipeM.bindImpl, Pure.pure, RecipeM.pureImpl, call, liftE,
    hc, hk, run_setup_model_qat C st sd fs m0 m1 m2 hq h0 hp h1 h2]

theorem run_quantize_noqat (C : Collaborators) (st : RecipeState) (fs : FS)
    (m m3 : Model)
    (hq : mode_has_qat st.quantization_mode = false)
    (hm : st.model = some m)
    (hz : C.quantize m = .ok m3) :
    QuantizationRecipe.quantize C st fs =
      ⟨[.quantizer_quantize], fs, .ok { st with model := some m3 }⟩ := by
  simp [QuantizationRecipe.quantize, QuantizationRecipe.quantize_dispatch,
    Bind.bind, RecipeM.bindImpl, Pure.pure, RecipeM.pureImpl, call, liftE,
    hq, hm, hz]

theorem run_quantize_qat (C : Collaborators) (st : RecipeState) (fs : FS)
    (m m3 : Model)
    (hq : mode_has_qat st.quantization_mode = true)
    (hm : st.model = some m)
    (hz : C.convert m = .ok m3) :
    QuantizationRecipe.quantize C st fs =
      ⟨[.quantizer_convert], fs, .ok { st with model := some m3 }⟩ := by
  simp [QuantizationRecipe.quantize, QuantizationRecipe.quantize_dispatch,
    Bind.bind, RecipeM.bindImpl, Pure.pure, RecipeM.pureImpl, call, liftE,
    hq, hm, hz]

theorem run_save_checkpoint (cfg : Config) (st : RecipeState) (fs fs2 : FS) (m : Model)
    (fname : String)
    (hm : st.model = some m)
    (hn : checkpoint_file_name cfg st.quantization_mode = .ok fname)
    (hmk : fs.mkdir_exist_ok cfg.checkpointer.output_dir = .ok fs2) :
    QuantizationRecipe.save_checkpoint cfg st fs =
      ⟨[.mkdir cfg.checkpointer.output_dir,
        .save_file (cfg.checkpointer.output_dir ++ [fname]) m],
        fs2.write_file (cfg.checkpointer.output_dir ++ [fname]) m, .ok ()⟩ := by
  simp [QuantizationRecipe.save_checkpoint, Bind.bind, RecipeM.bindImpl,
    Pure.pure, RecipeM.pureImpl, call, liftE, save_m,
    hm, hn, run_mkdir_ok _ _ _ hmk]

theorem run_main_noqat (cfg : Config) (C : Collaborators) (fs fs2 : FS)
    (ckpt : List (String × StateDict)) (sd : StateDict) (m0 m2 m3 : Model)
    (fname : String)
    (hq : mode_has_qat (get_quantizer_mode cfg.quantizer) = false)
    (hc : C.load_checkpoint = .ok ckpt)
    (hk : dict_get ckpt MODEL_KEY = .ok sd)
    (h0 : C.instantiate_model = .ok m0)
    (h1 : C.load_state_dict m0 sd = .ok m2)
    (h2 : validate_expected_param_dtype m2 cfg.dtype = .ok ())
    (hz : C.quantize m2 = .ok m3)
    (hn : checkpoint_file_name cfg (get_quantizer_mode cfg.quantizer) = .ok fname)
    (hmk : fs.mkdir_exist_ok cfg.checkpointer.output_dir = .ok fs2) :
    main cfg C fs =
      ⟨[.set_seed cfg.seed, .load_checkpoint, .instantiate_model, .load_state_dict,
        .validate_dtype, .quantizer_quantize, .mkdir cfg.checkpointer.output_dir,
        .save_file (cfg.checkpointer.output_dir ++ [fname]) m3],
        fs2.write_file (cfg.checkpointer.output_dir ++ [fname]) m3, .ok ()⟩ := by
  have hsetup := run_setup_noqat C
    { dtype := cfg.dtype, quantization_mode := get_quantizer_mode cfg.quantizer,
      model := none } fs ckpt sd m0 m2 hq hc hk h0 h1 h2
  have hquant := run_quantize_noqat C
    { dtype := cfg.dtype, quantization_mode := get_quantizer_mode cfg.quantizer,
      model := some m2 } fs m2 m3 hq rfl hz
  have hsave := run_save_checkpoint cfg
    { dtype := cfg.dtype, quantization_mode := get_quantizer_mode cfg.quantizer,
      model := some m3 } fs fs2 m3 fname rfl hn hmk
  simp only at hsetup
  simp [main, Bind.bind, RecipeM.bindImpl, run_init, hsetup, hquant, hsave]

theorem run_main_qat (cfg : Config) (C : Collaborators) (fs fs2 : FS)
    (ckpt : List (String × StateDict)) (sd : StateDict) (m0 m1 m2 m3 : Model)
    (fname : String)
    (hq : mode_has_qat (get_quantizer_mode cfg.quantizer) = true)
    (hc : C.load_checkpoint = .ok ckpt)
    (hk : dict_get ckpt MODEL_KEY = .ok sd)
    (h0 : C.instantiate_model = .ok m0)
    (hp : C.prepare m0 = .ok m1)
    (h1 : C.load_state_dict m1 sd = .ok m2)
    (h2 : validate_expected_param_dtype m2 cfg.dtype = .ok ())
    (hz : C.convert m2 = .ok m3)
    (hn : checkpoint_file_name cfg (get_quantizer_mode cfg.quantizer) = .ok fname)
    (hmk : fs.mkdir_exist_ok cfg.checkpointer.output_dir = .ok fs2) :
    main cfg C fs =
      ⟨[.set_seed cfg.seed, .load_checkpoint, .instantiate_model, .quantizer_prepare,
        .load_state_dict, .validate_dtype, .quantizer_convert,
        .mkdir cfg.checkpointer.output_dir,
        .save_file (cfg.checkpointer.output_dir ++ [fname]) m3],
        fs2.write_file (cfg.checkpointer.output_dir ++ [fname]) m3, .ok ()⟩ := by
  have hsetup := run_setup_qat C
    { dtype := cfg.dtype, quantization_mode := get_quantizer_mode cfg.quantizer,
      model := none } fs ckpt sd m0 m1 m2 hq hc hk h0 hp h1 h2
  have hquant := run_quantize_qat C
    { dtype := cfg.dtype, quantization_mode := get_quantizer_mode cfg.quantizer,
      model := some m2 } fs m2 m3 hq rfl hz
  have hsave := run_save_checkpoint cfg
    { dtype := cfg.dtype, quantization_mode := get_quantizer_mode cfg.quantizer,
      model := some m3 } fs fs2 m3 fname rfl hn hmk
  simp only at hsetup
  simp [main, Bind.bind, RecipeM.bindImpl, run_init, hsetup, hquant, hsave]

/-! Inversion lemmas: a successful run pins every oracle verdict on the path. -/

theorem setup_model_ok_inversion (C : Collaborators) (st : RecipeState) (sd : StateDict)
    (fs : FS) (mr : Model)
    (h : (QuantizationRecipe.setup_model C st sd fs).out = .ok mr) :
    ∃ m0 m1, C.instantiate_model = .ok m0 ∧
      (if mode_has_qat st.quantization_mode then C.prepare m0 else Except.ok m0) = .ok m1 ∧
      C.load_state_dict m1 sd = .ok mr ∧
      validate_expected_param_dtype mr st.dtype = .ok () := by
  unfold QuantizationRecipe.setup_model at h
  obtain ⟨m0, h0, h⟩ := bind_out_ok _ _ _ _ h
  obtain ⟨m1, hp, h⟩ := bind_out_ok _ _ _ _ h
  obtain ⟨m2, hl, h⟩ := bind_out_ok _ _ _ _ h
  obtain ⟨u, hv, h⟩ := bind_out_ok _ _ _ _ h
  have hmr : m2 = mr := Except.ok.inj h
  subst hmr
  refine ⟨m0, m1, h0, ?_, hl, hv⟩
  cases hq : mode_has_qat st.quantization_mode
  · rw [run_prepare_step_noqat C st m0 _ hq] at hp
    simp only [Bool.false_eq_true, if_false]
    exact hp
  · rw [run_prepare_step_qat C st m0 _ hq] at hp
    simp only [if_pos rfl]
    exact hp

theorem setup_ok_inversion (C : Collaborators) (st : RecipeState) (fs : FS)
    (st2 : RecipeState)
    (h : (QuantizationRecipe.setup C st fs).out = .ok st2) :
    ∃ ckpt sd m0 m1 m2,
      C.load_checkpoint = .ok ckpt ∧
      dict_get ckpt MODEL_KEY = .ok sd ∧
      C.instantiate_model = .ok m0 ∧
      (if mode_has_qat st.quantization_mode then C.prepare m0 else Except.ok m0) = .ok m1 ∧
      C.load_state_dict m1 sd = .ok m2 ∧
      validate_expected_param_dtype m2 st.dtype = .ok () ∧
      st2 = { st with model := some m2 } := by
  unfold QuantizationRecipe.setup at h
  obtain ⟨ckpt, hc, h⟩ := bind_out_ok _ _ _ _ h
  obtain ⟨sd, hk, h⟩ := bind_out_ok _ _ _ _ h
  obtain ⟨m2, hm, h⟩ := bind_out_ok _ _ _ _ h
  obtain ⟨m0, m1, h0, hp, hl, hv⟩ := setup_model_ok_inversion C st sd _ m2 hm
  exact ⟨ckpt, sd, m0, m1, m2, hc, hk, h0, hp, hl, hv, (Except.ok.inj h).symm⟩

theorem quantize_ok_inversion (C : Collaborators) (st : RecipeState) (fs : FS)
    (st2 : RecipeState)
    (h : (QuantizationRecipe.quantize C st fs).out = .ok st2) :
    ∃ m m3, st.model = some m ∧
      (if mode_has_qat st.quantization_mode then C.convert m else C.quantize m) = .ok m3 ∧
      st2 = { st with model := some m3 } := by
  unfold QuantizationRecipe.quantize at h
  obtain ⟨m, hm, h⟩ := bind_out_ok _ _ _ _ h
  obtain ⟨m3, hd, h⟩ := bind_out_ok _ _ _ _ h
  have hsm : st.model = some m := by
    cases hx : st.model with
    | none =>
      have hm2 : (Except.error "AttributeError: _model" : Except Err Model) = .ok m := by
        rw [show (Except.error "AttributeError: _model" : Except Err Model) =
          (match st.model with
            | some m => Except.ok m
            | none => Except.error "AttributeError: _model") from by rw [hx]]
        exact hm
      exact Except.noConfusion hm2
    | some m' =>
      have hm2 : (Except.ok m' : Except Err Model) = .ok m := by
        rw [show (Except.ok m' : Except Err Model) =
          (match st.model with
            | some m => Except.ok m
            | none => Except.error "AttributeError: _model") from by rw [hx]]
        exact hm
      exact congrArg some (Except.ok.inj hm2)
  refine ⟨m, m3, hsm, ?_, (Except.ok.inj h).symm⟩
  cases hq : mode_has_qat st.quantization_mode
  · rw [run_quantize_dispatch_noqat C st m _ hq] at hd
    simp only [Bool.false_eq_true, if_false]
    exact hd
  · rw [run_quantize_dispatch_qat C st m _ hq] at hd
    simp only [if_pos rfl]
    exact hd

theorem save_checkpoint_ok_inversion (cfg : Config) (st : RecipeState) (fs : FS)
    (h : (QuantizationRecipe.save_checkpoint cfg st fs).out = .ok ()) :
    ∃ m fname fs2, st.model = some m ∧
      checkpoint_file_name cfg st.quantization_mode = .ok fname ∧
      fs.mkdir_exist_ok cfg.checkpointer.output_dir = .ok fs2 := by
  unfold QuantizationRecipe.save_checkpoint at h
  obtain ⟨m, hm, h⟩ := bind_out_ok _ _ _ _ h
  obtain ⟨fname, hn, h⟩ := bind_out_ok _ _ _ _ h
  obtain ⟨u, hmk, h⟩ := bind_out_ok _ _ _ _ h
  have hsm : st.model = some m := by
    cases hx : st.model with
    | none =>
      have hm2 : (Except.error "AttributeError: _model" : Except Err Model) = .ok m := by
        rw [show (Except.error "AttributeError: _model" : Except Err Model) =
          (match st.model with
            | some m => Except.ok m
            | none => Except.error "AttributeError: _model") from by rw [hx]]
        exact hm
      exact Except.noConfusion hm2
    | some m' =>
      have hm2 : (Except.ok m' : Except Err Model) = .ok m := by
        rw [show (Except.ok m' : Except Err Model) =
          (match st.model with
            | some m => Except.ok m
            | none => Except.error "AttributeError: _model") from by rw [hx]]
        exact hm
      exact congrArg some (Except.ok.inj hm2)
  refine ⟨m, fname, ?_⟩
  simp only [liftE] at hmk
  cases hmk2 : FS.mkdir_exist_ok fs cfg.checkpointer.output_dir with
  | ok fs2 => exact ⟨fs2, hsm, hn, rfl⟩
  | error e =>
    rw [show mkdir_m cfg.checkpointer.output_dir fs =
        ⟨[.mkdir cfg.checkpointer.output_dir], fs, .error e⟩ from
      run_mkdir_error _ _ _ hmk2] at hmk
    exact Except.noConfusion hmk

theorem main_ok_inversion (cfg : Config) (C : Collaborators) (fs : FS)
    (h : (main cfg C fs).out = .ok ()) :
    ∃ ckpt sd m0 m1 m2 m3 fname fs2,
      C.load_checkpoint = .ok ckpt ∧
      dict_get ckpt MODEL_KEY = .ok sd ∧
      C.instantiate_model = .ok m0 ∧
      (if mode_has_qat (get_quantizer_mode cfg.quantizer) then C.prepare m0
        else Except.ok m0) = .ok m1 ∧
      C.load_state_dict m1 sd = .ok m2 ∧
      validate_expected_param_dtype m2 cfg.dtype = .ok () ∧
      (if mode_has_qat (get_quantizer_mode cfg.quantizer) then C.convert m2
        else C.quantize m2) = .ok m3 ∧
      checkpoint_file_name cfg (get_quantizer_mode cfg.quantizer) = .ok fname ∧
      fs.mkdir_exist_ok cfg.checkpointer.output_dir = .ok fs2 := by
  unfold main at h
  obtain ⟨st0, hi, h⟩ := bind_out_ok _ _ _ _ h
  have hst0 : st0 =
      { dtype := cfg.dtype, quantization_mode := get_quantizer_mode cfg.quantizer,
        model := none } := (Except.ok.inj hi).symm
  subst hst0
  rw [show (QuantizationRecipe.init cfg fs).fs = fs from rfl] at h
  obtain ⟨st1, hs, h⟩ := bind_out_ok _ _ _ _ h
  obtain ⟨ckpt, sd, m0, m1, m2, hc, hk, h0, hp, hl, hv, hst1⟩ :=
    setup_ok_inversion C _ _ st1 hs
  subst hst1
  rw [preservesFS_setup C _ fs] at h
  obtain ⟨st2, hz, h⟩ := bind_out_ok _ _ _ _ h
  obtain ⟨m, m3, hsm, hd, hst2⟩ := quantize_ok_inversion C _ _ st2 hz
  have hmm : m = m2 := (Option.some.inj hsm).symm
  rw [hmm] at hd
  subst hst2
  rw [preservesFS_quantize C _ fs] at h
  obtain ⟨m', fname, fs2, hsm', hn, hmk⟩ := save_checkpoint_ok_inversion cfg _ _ h
  exact ⟨ckpt, sd, m0, m1, m2, m3, fname, fs2, hc, hk, h0, hp, hl, hv, hd, hn, hmk⟩


/-! String lemmas for the checkpoint file name computation. -/

theorem string_data_append (s t : String) : (s ++ t).data = s.data ++ t.data := by
  cases s
  cases t
  rfl

theorem string_eq_of_data (s t : String) (h : s.data = t.data) : s = t := by
  cases s
  cases t
  exact congrArg String.mk h

theorem dropWhile_append_of_all {α : Type} (p : α → Bool) (a b : List α)
    (h : ∀ x ∈ a, p x = true) :
    List.dropWhile p (a ++ b) = List.dropWhile p b := by
  induction a with
  | nil => rfl
  | cons x xs ih =>
    rw [List.cons_append, List.dropWhile_cons, h x (List.mem_cons_self x xs)]
    simp only [if_pos rfl]
    exact ih fun y hy => h y (List.mem_cons_of_mem x hy)

theorem rstrip_chars_append_last (l : List Char) (c : Char) (strip : List Char)
    (h : strip.contains c = false) :
    rstrip_chars (l ++ [c]) strip = l ++ [c] := by
  unfold rstrip_chars
  rw [List.reverse_append]
  simp only [List.reverse_cons, List.reverse_nil, List.nil_append, List.singleton_append]
  rw [List.dropWhile_cons]
  simp only [h]
  simp

theorem rstrip_chars_append_stripped (l m strip : List Char)
    (h : ∀ c ∈ m, strip.contains c = true) :
    rstrip_chars (l ++ m) strip = rstrip_chars l strip := by
  unfold rstrip_chars
  rw [List.reverse_append, dropWhile_append_of_all _ m.reverse _
    fun x hx => h x (List.mem_reverse.mp hx)]

theorem drop_after_last_dot_eq_none (l : List Char)
    (h : ∀ c ∈ l, (c == '.') = false) :
    drop_after_last_dot l = none := by
  induction l with
  | nil => rfl
  | cons c cs ih =>
    have hc : ¬(c = '.') := by simpa using h c (List.mem_cons_self c cs)
    unfold drop_after_last_dot
    rw [ih fun x hx => h x (List.mem_cons_of_mem c hx)]
    simp [hc]

theorem split_dot_head_no_dot (s : String) :
    ∀ c ∈ (split_dot_head s).data, (c == '.') = false := by
  intro c hc
  have hc2 : c ∈ List.takeWhile (fun c => !(c == '.')) s.data := hc
  have hp := @List.mem_takeWhile_imp Char (fun c => !(c == '.')) s.data c hc2
  simpa using hp

theorem no_dot_append (a b : List Char)
    (ha : ∀ c ∈ a, (c == '.') = false) (hb : ∀ c ∈ b, (c == '.') = false) :
    ∀ c ∈ a ++ b, (c == '.') = false := by
  intro c hc
  rcases List.mem_append.mp hc with h | h
  · exact ha c h
  · exact hb c h

theorem with_suffix_no_dot (name suf : String)
    (h : ∀ c ∈ name.data, (c == '.') = false) :
    with_suffix name suf = name ++ suf := by
  unfold with_suffix
  rw [drop_after_last_dot_eq_none name.data h]
  exact string_eq_of_data _ _ (by rw [string_data_append])

theorem py_rstrip_8da4w (s : String) :
    py_rstrip (s ++ "-" ++ "8da4w") "-qat" = s ++ "-" ++ "8da4w" := by
  apply string_eq_of_data
  show rstrip_chars (s ++ "-" ++ "8da4w").data "-qat".data = (s ++ "-" ++ "8da4w").data
  have heq1 : (s ++ "-" ++ "8da4w").data = (s.data ++ "-8da4".data) ++ ['w'] := by
    rw [string_data_append, string_data_append, List.append_assoc, List.append_assoc]
    exact congrArg (fun l => s.data ++ l) (by decide)
  rw [heq1]
  exact rstrip_chars_append_last (s.data ++ "-8da4".data) 'w' "-qat".data (by decide)

theorem py_rstrip_8da4w_qat (s : String) :
    py_rstrip (s ++ "-" ++ "8da4w-qat") "-qat" = s ++ "-" ++ "8da4w" := by
  apply string_eq_of_data
  show rstrip_chars (s ++ "-" ++ "8da4w-qat").data "-qat".data = (s ++ "-" ++ "8da4w").data
  have heq1 : (s ++ "-" ++ "8da4w-qat").data =
      (s.data ++ ("-8da4".data ++ ['w'])) ++ "-qat".data := by
    rw [string_data_append, string_data_append, List.append_assoc, List.append_assoc]
    exact congrArg (fun l => s.data ++ l) (by decide)
  rw [heq1]
  rw [rstrip_chars_append_stripped (s.data ++ ("-8da4".data ++ ['w']))
    "-qat".data "-qat".data (by decide)]
  rw [← List.append_assoc]
  rw [rstrip_chars_append_last (s.data ++ "-8da4".data) 'w' "-qat".data (by decide)]
  rw [string_data_append, string_data_append, List.append_assoc, List.append_assoc]
  exact congrArg (fun l => s.data ++ l) (by decide)

theorem name_no_dot_8da4w (f0 : String) :
    ∀ c ∈ (split_dot_head f0 ++ "-" ++ "8da4w").data, (c == '.') = false := by
  rw [string_data_append, string_data_append, List.append_assoc]
  exact no_dot_append _ _ (split_dot_head_no_dot f0) (by decide)

/-- The computed checkpoint file name, for the supported quantization modes, equals
the spec's description: stem before the first dot, a dash, the mode with its `-qat`
suffix removed, and the `.ckpt` extension. -/
theorem checkpoint_file_name_eq (cfg : Config) (f0 : String) (rest : List String)
    (hf : cfg.checkpointer.checkpoint_files = f0 :: rest) :
    checkpoint_file_name cfg (get_quantizer_mode cfg.quantizer) =
      .ok (split_dot_head f0 ++ "-" ++
        strip_qat_suffix (get_quantizer_mode cfg.quantizer) ++ ".ckpt") := by
  unfold checkpoint_file_name
  rw [hf]
  cases hq : cfg.quantizer with
  | int8DynActInt4Weight =>
    simp only [get_quantizer_mode]
    rw [py_rstrip_8da4w (split_dot_head f0),
      with_suffix_no_dot _ _ (name_no_dot_8da4w f0),
      show strip_qat_suffix "8da4w" = "8da4w" from by decide]
  | int8DynActInt4WeightQAT =>
    simp only [get_quantizer_mode]
    rw [py_rstrip_8da4w_qat (split_dot_head f0),
      with_suffix_no_dot _ _ (name_no_dot_8da4w f0),
      show strip_qat_suffix "8da4w-qat" = "8da4w" from by decide]

theorem mkdir_files_eq (fs fs2 : FS) (p : List String)
    (h : fs.mkdir_exist_ok p = .ok fs2) : fs2.files = fs.files := by
  unfold FS.mkdir_exist_ok at h
  split at h
  · rw [← Except.ok.inj h]
  · split at h
    · rw [← Except.ok.inj h]
    · exact Except.noConfusion h

/-- Claim C5: each parameterless base builder passes fixed constant architecture
hyperparameters, every LoRA builder passes exactly the base hyperparameters of the
plain builder of its size to its component builder, and the LoRA reward builder
matches the reward builder including `num_classes = 1`. -/
theorem lora_builders_match_base_hyperparameters :
    llama2_7b.baseArgs =
      { vocab_size := 32000, num_layers := 32, num_heads := 32, num_kv_heads := 32,
        embed_dim := 4096, intermediate_dim := none, max_seq_len := 4096,
        attn_dropout := 0, norm_eps := 1 / 100000 } ∧
    llama2_13b.baseArgs =
      { vocab_size := 32000, num_layers := 40, num_heads := 40, num_kv_heads := 40,
        embed_dim := 5120, intermediate_dim := some 13824, max_seq_len := 4096,
        attn_dropout := 0, norm_eps := 1 / 100000 } ∧
    llama2_70b.baseArgs =
      { vocab_size := 32000, num_layers := 80, num_heads := 64, num_kv_heads := 8,
        embed_dim := 8192, intermediate_dim := some 28672, max_seq_len := 4096,
        attn_dropout := 0, norm_eps := 1 / 100000 } ∧
    (∀ p qb, (lora_llama2_7b p qb).baseArgs = llama2_7b.baseArgs) ∧
    (∀ p qb, (lora_llama2_13b p qb).baseArgs = llama2_13b.baseArgs) ∧
    (∀ p qb, (lora_llama2_70b p qb).baseArgs = llama2_70b.baseArgs) ∧
    (∀ p qb, (lora_llama2_reward_7b p qb).baseArgs = llama2_reward_7b.baseArgs) ∧
    (∀ p qb, (lora_llama2_reward_7b p qb).numClasses = llama2_reward_7b.numClasses) ∧
    llama2_reward_7b.numClasses = some 1 :=
  ⟨rfl, rfl, rfl, fun _ _ => rfl, fun _ _ => rfl, fun _ _ => rfl, fun _ _ => rfl,
    fun _ _ => rfl, rfl⟩

/-- Claim C9: for each size, the qlora builder is the lora builder of that size with
`quantize_base` preset to `True` and every other argument passed through unchanged. -/
theorem qlora_builders_are_lora_with_quantize_base :
    (∀ p, qlora_llama2_7b p = lora_llama2_7b p true) ∧
    (∀ p, qlora_llama2_13b p = lora_llama2_13b p true) ∧
    (∀ p, qlora_llama2_70b p = lora_llama2_70b p true) :=
  ⟨fun _ => rfl, fun _ => rfl, fun _ => rfl⟩

/-- Claim C1 (code bug): `qlora_llama2_reward_7b` wraps `lora_llama2_7b`, so it builds
the plain LoRA decoder, not the classifier with `num_classes = 1` that the claim (and
the builder's own docstring) describe. -/
theorem qlora_llama2_reward_7b_builds_nonclassifier :
    qlora_llama2_reward_7b demo_lora_args = lora_llama2_7b demo_lora_args true ∧
    qlora_llama2_reward_7b demo_lora_args ≠ lora_llama2_reward_7b demo_lora_args true ∧
    (qlora_llama2_reward_7b demo_lora_args).numClasses = none ∧
    (lora_llama2_reward_7b demo_lora_args true).numClasses = some 1 :=
  ⟨rfl, fun h => TransformerDecoder.noConfusion h, rfl, rfl⟩

/-- Claim C2: when the recipe state carries the mode of the configured quantizer and
the output directory can be created, `save_checkpoint` succeeds and adds exactly one
file: it lives in `cfg.checkpointer.output_dir`, its name is the first checkpoint
file's text before the first dot, a dash, the quantization mode with its trailing
`-qat` suffix removed, and the `.ckpt` extension, and its contents are the model's
state dict.  (The mode set is modelled from the spec via `get_quantizer_mode`.) -/
theorem save_checkpoint_single_file (cfg : Config) (st : RecipeState) (fs fs2 : FS)
    (m : Model) (f0 : String) (rest : List String)
    (hf : cfg.checkpointer.checkpoint_files = f0 :: rest)
    (hm : st.model = some m)
    (hmode : st.quantization_mode = get_quantizer_mode cfg.quantizer)
    (hmk : fs.mkdir_exist_ok cfg.checkpointer.output_dir = .ok fs2) :
    (QuantizationRecipe.save_checkpoint cfg st fs).out = .ok () ∧
    (QuantizationRecipe.save_checkpoint cfg st fs).fs.files =
      (cfg.checkpointer.output_dir ++
        [split_dot_head f0 ++ "-" ++
          strip_qat_suffix (get_quantizer_mode cfg.quantizer) ++ ".ckpt"], m)
        :: fs.files := by
  have hn : checkpoint_file_name cfg st.quantization_mode =
      .ok (split_dot_head f0 ++ "-" ++
        strip_qat_suffix (get_quantizer_mode cfg.quantizer) ++ ".ckpt") := by
    rw [hmode]
    exact checkpoint_file_name_eq cfg f0 rest hf
  rw [run_save_checkpoint cfg st fs fs2 m _ hm hn hmk]
  refine ⟨rfl, ?_⟩
  show (fs2.write_file _ m).files = _
  unfold FS.write_file
  rw [mkdir_files_eq fs fs2 _ hmk]

theorem save_checkpoint_single_file_witness :
    (QuantizationRecipe.save_checkpoint demo_cfg demo_state demo_fs).out = .ok () ∧
    (QuantizationRecipe.save_checkpoint demo_cfg demo_state demo_fs).fs.files =
      (demo_cfg.checkpointer.output_dir ++
        [split_dot_head "llama2-checkpoint-01.pt" ++ "-" ++
          strip_qat_suffix (get_quantizer_mode demo_cfg.quantizer) ++ ".ckpt"],
        demo_model) :: demo_fs.files :=
  save_checkpoint_single_file demo_cfg demo_state demo_fs
    { dirs := [["out"]], files := [] } demo_model "llama2-checkpoint-01.pt" []
    rfl rfl rfl (by rfl)

/-- Claim C3: `quantize` applies the quantizer's `convert` exactly when the mode
contains `qat` and its `quantize` otherwise; during model setup, `prepare` runs
exactly when the mode contains `qat`, after model instantiation and before the state
dict is loaded. -/
theorem quantizer_mode_dispatch (C : Collaborators) (st : RecipeState) (sd : StateDict)
    (fs : FS) (m m0 m1 : Model) :
    (st.model = some m →
      (mode_has_qat st.quantization_mode = true →
        QuantizationRecipe.quantize C st fs =
          ⟨[Event.quantizer_convert], fs,
            (C.convert m).map fun m2 => { st with model := some m2 }⟩) ∧
      (mode_has_qat st.quantization_mode = false →
        QuantizationRecipe.quantize C st fs =
          ⟨[Event.quantizer_quantize], fs,
            (C.quantize m).map fun m2 => { st with model := some m2 }⟩)) ∧
    (C.instantiate_model = .ok m0 →
      (mode_has_qat st.quantization_mode = true → C.prepare m0 = .ok m1 →
        (QuantizationRecipe.setup_model C st sd fs).trace.take 3 =
          [Event.instantiate_model, Event.quantizer_prepare, Event.load_state_dict]) ∧
      (mode_has_qat st.quantization_mode = false →
        (QuantizationRecipe.setup_model C st sd fs).trace.take 2 =
          [Event.instantiate_model, Event.load_state_dict] ∧
        Event.quantizer_prepare ∉ (QuantizationRecipe.setup_model C st sd fs).trace)) := by
  constructor
  · intro hm
    constructor
    · intro hq
      cases hcv : C.convert m with
      | ok m2 =>
        simp [QuantizationRecipe.quantize, QuantizationRecipe.quantize_dispatch,
          Bind.bind, RecipeM.bindImpl, Pure.pure, RecipeM.pureImpl, call, liftE,
          hm, hq, hcv, Except.map]
      | error e =>
        simp [QuantizationRecipe.quantize, QuantizationRecipe.quantize_dispatch,
          Bind.bind, RecipeM.bindImpl, Pure.pure, RecipeM.pureImpl, call, liftE,
          hm, hq, hcv, Except.map]
    · intro hq
      cases hcv : C.quantize m with
      | ok m2 =>
        simp [QuantizationRecipe.quantize, QuantizationRecipe.quantize_dispatch,
          Bind.bind, RecipeM.bindImpl, Pure.pure, RecipeM.pureImpl, call, liftE,
          hm, hq, hcv, Except.map]
      | error e =>
        simp [QuantizationRecipe.quantize, QuantizationRecipe.quantize_dispatch,
          Bind.bind, RecipeM.bindImpl, Pure.pure, RecipeM.pureImpl, call, liftE,
          hm, hq, hcv, Except.map]
  · intro h0
    constructor
    · intro hq hp
      cases hl : C.load_state_dict m1 sd with
      | error e =>
        simp [QuantizationRecipe.setup_model, QuantizationRecipe.prepare_step,
          Bind.bind, RecipeM.bindImpl, Pure.pure, RecipeM.pureImpl, call, liftE,
          h0, hq, hp, hl]
      | ok m2 =>
        cases hv : validate_expected_param_dtype m2 st.dtype with
        | error e =>
          simp [QuantizationRecipe.setup_model, QuantizationRecipe.prepare_step,
            Bind.bind, RecipeM.bindImpl, Pure.pure, RecipeM.pureImpl, call, liftE,
            h0, hq, hp, hl, hv]
        | ok u =>
          simp [QuantizationRecipe.setup_model, QuantizationRecipe.prepare_step,
            Bind.bind, RecipeM.bindImpl, Pure.pure, RecipeM.pureImpl, call, liftE,
            h0, hq, hp, hl, hv]
    · intro hq
      cases hl : C.load_state_dict m0 sd with
      | error e =>
        simp [QuantizationRecipe.setup_model, QuantizationRecipe.prepare_step,
          Bind.bind, RecipeM.bindImpl, Pure.pure, RecipeM.pureImpl, call, liftE,
          h0, hq, hl]
      | ok m2 =>
        cases hv : validate_expected_param_dtype m2 st.dtype with
        | error e =>
          simp [QuantizationRecipe.setup_model, QuantizationRecipe.prepare_step,
            Bind.bind, RecipeM.bindImpl, Pure.pure, RecipeM.pureImpl, call, liftE,
            h0, hq, hl, hv]
        | ok u =>
          simp [QuantizationRecipe.setup_model, QuantizationRecipe.prepare_step,
            Bind.bind, RecipeM.bindImpl, Pure.pure, RecipeM.pureImpl, call, liftE,
            h0, hq, hl, hv]

theorem quantizer_mode_dispatch_witness :
    (QuantizationRecipe.setup_model demo_collab demo_state_qat demo_model demo_fs).trace.take 3 =
      [Event.instantiate_model, Event.quantizer_prepare, Event.load_state_dict] :=
  ((quantizer_mode_dispatch demo_collab demo_state_qat demo_model demo_fs
    demo_model demo_model demo_model).2 rfl).1 rfl rfl

/-- Claim C4: on a successful run, `main` performs the pipeline in the fixed order
construct (seeding) - setup (checkpoint load, model construction and loading) -
quantize - save, each step exactly once. -/
theorem main_pipeline_order (cfg : Config) (C : Collaborators) (fs : FS)
    (h : (main cfg C fs).out = .ok ()) :
    ∃ p d, (main cfg C fs).trace =
      [Event.set_seed cfg.seed, Event.load_checkpoint, Event.instantiate_model]
      ++ (if mode_has_qat (get_quantizer_mode cfg.quantizer)
          then [Event.quantizer_prepare] else [])
      ++ [Event.load_state_dict, Event.validate_dtype]
      ++ [if mode_has_qat (get_quantizer_mode cfg.quantizer)
          then Event.quantizer_convert else Event.quantizer_quantize]
      ++ [Event.mkdir cfg.checkpointer.output_dir, Event.save_file p d] := by
  obtain ⟨ckpt, sd, m0, m1, m2, m3, fname, fs2, hc, hk, h0, hp, hl, hv, hd, hn, hmk⟩ :=
    main_ok_inversion cfg C fs h
  refine ⟨cfg.checkpointer.output_dir ++ [fname], m3, ?_⟩
  cases hq : mode_has_qat (get_quantizer_mode cfg.quantizer)
  · rw [hq] at hp hd
    simp only [Bool.false_eq_true, if_false] at hp hd
    have hm01 : m0 = m1 := Except.ok.inj hp
    subst hm01
    rw [run_main_noqat cfg C fs fs2 ckpt sd m0 m2 m3 fname hq hc hk h0 hl hv hd hn hmk]
    simp [hq]
  · rw [hq] at hp hd
    simp only [if_pos rfl] at hp hd
    rw [run_main_qat cfg C fs fs2 ckpt sd m0 m1 m2 m3 fname hq hc hk h0 hp hl hv hd hn hmk]
    simp [hq]

theorem main_pipeline_order_witness :
    ∃ p d, (main demo_cfg demo_collab demo_fs).trace =
      [Event.set_seed demo_cfg.seed, Event.load_checkpoint, Event.instantiate_model]
      ++ (if mode_has_qat (get_quantizer_mode demo_cfg.quantizer)
          then [Event.quantizer_prepare] else [])
      ++ [Event.load_state_dict, Event.validate_dtype]
      ++ [if mode_has_qat (get_quantizer_mode demo_cfg.quantizer)
          then Event.quantizer_convert else Event.quantizer_quantize]
      ++ [Event.mkdir demo_cfg.checkpointer.output_dir, Event.save_file p d] :=
  main_pipeline_order demo_cfg demo_collab demo_fs (by rfl)

/-! Helpers for Claim C6: an erroring run leaves the filesystem untouched and its
trace contains no save event. -/

/-- On an error outcome the filesystem is untouched. -/
def ErrFSInv (x : RecipeM α) : Prop := ∀ fs e, (x fs).out = .error e → (x fs).fs = fs

theorem errFSInv_bind (x : RecipeM α) (f : α → RecipeM β)
    (hx : PreservesFS x) (hf : ∀ a, ErrFSInv (f a)) : ErrFSInv (x >>= f) := by
  intro fs e h
  rw [show (x >>= f) fs = RecipeM.bindImpl x f fs from rfl] at h ⊢
  unfold RecipeM.bindImpl at h ⊢
  cases hout : (x fs).out with
  | error e2 => simp only [hout]; exact hx fs
  | ok a =>
    simp only [hout] at h ⊢
    rw [hx fs] at h ⊢
    exact hf a fs e h

theorem errFSInv_save_checkpoint (cfg : Config) (st : RecipeState) :
    ErrFSInv (QuantizationRecipe.save_checkpoint cfg st) := by
  intro fs e h
  cases hm : st.model with
  | none =>
    simp [QuantizationRecipe.save_checkpoint, Bind.bind, RecipeM.bindImpl,
      Pure.pure, RecipeM.pureImpl, call, liftE, hm]
  | some m =>
    cases hn : checkpoint_file_name cfg st.quantization_mode with
    | error e2 =>
      simp [QuantizationRecipe.save_checkpoint, Bind.bind, RecipeM.bindImpl,
        Pure.pure, RecipeM.pureImpl, call, liftE, hm, hn]
    | ok fname =>
      cases hmk : fs.mkdir_exist_ok cfg.checkpointer.output_dir with
      | ok fs2 =>
        rw [run_save_checkpoint cfg st fs fs2 m fname hm hn hmk] at h
        exact Except.noConfusion h
      | error e2 =>
        simp [QuantizationRecipe.save_checkpoint, Bind.bind, RecipeM.bindImpl,
          Pure.pure, RecipeM.pureImpl, call, liftE, mkdir_m, hm, hn, hmk]

theorem errFSInv_main (cfg : Config) (C : Collaborators) : ErrFSInv (main cfg C) := by
  unfold main
  refine errFSInv_bind _ _ (preservesFS_init cfg) fun st => ?_
  refine errFSInv_bind _ _ (preservesFS_setup C st) fun st2 => ?_
  refine errFSInv_bind _ _ (preservesFS_quantize C st2) fun st3 => ?_
  exact errFSInv_save_checkpoint cfg st3

/-- The step's trace never contains a save event. -/
def SaveFree (x : RecipeM α) : Prop :=
  ∀ fs p d, Event.save_file p d ∉ (x fs).trace

/-- On an error outcome, the trace contains no save event. -/
def SaveFreeOnError (x : RecipeM α) : Prop :=
  ∀ fs e p d, (x fs).out = .error e → Event.save_file p d ∉ (x fs).trace

theorem saveFree_call (ev : Event) (x : Except Err α)
    (hev : ∀ p d, Event.save_file p d ≠ ev) : SaveFree (call ev x) := by
  intro fs p d
  simp only [call, List.mem_singleton]
  exact hev p d

theorem saveFree_pure (a : α) : SaveFree (pure a : RecipeM α) := by
  intro fs p d
  simp [Pure.pure, RecipeM.pureImpl]

theorem saveFree_liftE (x : Except Err α) : SaveFree (liftE x) := by
  intro fs p d
  simp [liftE]

theorem saveFree_bind (x : RecipeM α) (f : α → RecipeM β)
    (hx : SaveFree x) (hf : ∀ a, SaveFree (f a)) : SaveFree (x >>= f) := by
  intro fs p d
  show Event.save_file p d ∉ (RecipeM.bindImpl x f fs).trace
  unfold RecipeM.bindImpl
  cases hout : (x fs).out with
  | error e => simp only [hout]; exact hx fs p d
  | ok a =>
    simp only [hout]
    intro hc
    rcases List.mem_append.mp hc with hmem | hmem
    · exact hx fs p d hmem
    · exact hf a ((x fs).fs) p d hmem

theorem saveFree_prepare_step (C : Collaborators) (st : RecipeState) (m : Model) :
    SaveFree (QuantizationRecipe.prepare_step C st m) := by
  unfold QuantizationRecipe.prepare_step
  split
  · exact saveFree_call _ _ fun _ _ h => Event.noConfusion h
  · exact saveFree_pure _

theorem saveFree_quantize_dispatch (C : Collaborators) (st : RecipeState) (m : Model) :
    SaveFree (QuantizationRecipe.quantize_dispatch C st m) := by
  unfold QuantizationRecipe.quantize_dispatch
  split
  · exact saveFree_call _ _ fun _ _ h => Event.noConfusion h
  · exact saveFree_call _ _ fun _ _ h => Event.noConfusion h

theorem saveFree_init (cfg : Config) : SaveFree (QuantizationRecipe.init cfg) :=
  saveFree_bind _ _ (saveFree_call _ _ fun _ _ h => Event.noConfusion h)
    fun _ => saveFree_pure _

theorem saveFree_setup_model (C : Collaborators) (st : RecipeState) (sd : StateDict) :
    SaveFree (QuantizationRecipe.setup_model C st sd) := by
  refine saveFree_bind _ _ (saveFree_call _ _ fun _ _ h => Event.noConfusion h) fun m0 => ?_
  refine saveFree_bind _ _ (saveFree_prepare_step C st m0) fun m1 => ?_
  refine saveFree_bind _ _ (saveFree_call _ _ fun _ _ h => Event.noConfusion h) fun m2 => ?_
  exact saveFree_bind _ _ (saveFree_call _ _ fun _ _ h => Event.noConfusion h)
    fun _ => saveFree_pure _

theorem saveFree_setup (C : Collaborators) (st : RecipeState) :
    SaveFree (QuantizationRecipe.setup C st) := by
  refine saveFree_bind _ _ (saveFree_call _ _ fun _ _ h => Event.noConfusion h) fun ckpt => ?_
  refine saveFree_bind _ _ (saveFree_liftE _) fun sd => ?_
  exact saveFree_bind _ _ (saveFree_setup_model C st sd) fun m => saveFree_pure _

theorem saveFree_quantize (C : Collaborators) (st : RecipeState) :
    SaveFree (QuantizationRecipe.quantize C st) := by
  refine saveFree_bind _ _ (saveFree_liftE _) fun m => ?_
  exact saveFree_bind _ _ (saveFree_quantize_dispatch C st m) fun m2 => saveFree_pure _

theorem saveFreeOnError_bind (x : RecipeM α) (f : α → RecipeM β)
    (hx : SaveFree x) (hf : ∀ a, SaveFreeOnError (f a)) : SaveFreeOnError (x >>= f) := by
  intro fs e p d h
  rw [show (x >>= f) fs = RecipeM.bindImpl x f fs from rfl] at h ⊢
  unfold RecipeM.bindImpl at h ⊢
  cases hout : (x fs).out with
  | error e2 => simp only [hout]; exact hx fs p d
  | ok a =>
    simp only [hout] at h ⊢
    intro hc
    rcases List.mem_append.mp hc with hmem | hmem
    · exact hx fs p d hmem
    · exact hf a ((x fs).fs) e p d h hmem

theorem saveFreeOnError_save_checkpoint (cfg : Config) (st : RecipeState) :
    SaveFreeOnError (QuantizationRecipe.save_checkpoint cfg st) := by
  intro fs e p d h
  cases hm : st.model with
  | none =>
    simp [QuantizationRecipe.save_checkpoint, Bind.bind, RecipeM.bindImpl,
      Pure.pure, RecipeM.pureImpl, call, liftE, hm]
  | some m =>
    cases hn : checkpoint_file_name cfg st.quantization_mode with
    | error e2 =>
      simp [QuantizationRecipe.save_checkpoint, Bind.bind, RecipeM.bindImpl,
        Pure.pure, RecipeM.pureImpl, call, liftE, hm, hn]
    | ok fname =>
      cases hmk : fs.mkdir_exist_ok cfg.checkpointer.output_dir with
      | ok fs2 =>
        rw [run_save_checkpoint cfg st fs fs2 m fname hm hn hmk] at h
        exact Except.noConfusion h
      | error e2 =>
        simp [QuantizationRecipe.save_checkpoint, Bind.bind, RecipeM.bindImpl,
          Pure.pure, RecipeM.pureImpl, call, liftE, mkdir_m, hm, hn, hmk]

theorem saveFreeOnError_main (cfg : Config) (C : Collaborators) :
    SaveFreeOnError (main cfg C) := by
  unfold main
  refine saveFreeOnError_bind _ _ (saveFree_init cfg) fun st => ?_
  refine saveFreeOnError_bind _ _ (saveFree_setup C st) fun st2 => ?_
  refine saveFreeOnError_bind _ _ (saveFree_quantize C st2) fun st3 => ?_
  exact saveFreeOnError_save_checkpoint cfg st3

/-- Claim C6: the recipe catches nothing: a collaborator failure propagates out of
`main` unchanged (shown for the checkpoint load and for a failing state-dict load),
and any failing run leaves the filesystem exactly as it was and performs no save. -/
theorem failures_propagate_unchanged (cfg : Config) (C : Collaborators) (fs : FS) :
    (∀ e, C.load_checkpoint = .error e → (main cfg C fs).out = .error e) ∧
    (∀ e ckpt sd m0 m1, C.load_checkpoint = .ok ckpt →
      dict_get ckpt MODEL_KEY = .ok sd →
      C.instantiate_model = .ok m0 →
      (if mode_has_qat (get_quantizer_mode cfg.quantizer) then C.prepare m0
        else Except.ok m0) = .ok m1 →
      C.load_state_dict m1 sd = .error e →
      (main cfg C fs).out = .error e) ∧
    (∀ e ckpt sd m0 m1 m2, C.load_checkpoint = .ok ckpt →
      dict_get ckpt MODEL_KEY = .ok sd →
      C.instantiate_model = .ok m0 →
      (if mode_has_qat (get_quantizer_mode cfg.quantizer) then C.prepare m0
        else Except.ok m0) = .ok m1 →
      C.load_state_dict m1 sd = .ok m2 →
      validate_expected_param_dtype m2 cfg.dtype = .ok () →
      (if mode_has_qat (get_quantizer_mode cfg.quantizer) then C.convert m2
        else C.quantize m2) = .error e →
      (main cfg C fs).out = .error e) ∧
    (∀ e, (main cfg C fs).out = .error e →
      (main cfg C fs).fs = fs ∧
      ∀ p d, Event.save_file p d ∉ (main cfg C fs).trace) := by
  refine ⟨?_, ?_, ?_, ?_⟩
  · intro e he
    simp [main, QuantizationRecipe.init, QuantizationRecipe.setup,
      QuantizationRecipe.load_checkpoint_call, Bind.bind, RecipeM.bindImpl,
      Pure.pure, RecipeM.pureImpl, call, liftE, he]
  · intro e ckpt sd m0 m1 hc hk h0 hp hl
    cases hq : mode_has_qat (get_quantizer_mode cfg.quantizer)
    · rw [hq] at hp
      simp only [Bool.false_eq_true, if_false] at hp
      have hm01 : m0 = m1 := Except.ok.inj hp
      subst hm01
      simp [main, QuantizationRecipe.init, QuantizationRecipe.setup,
        QuantizationRecipe.load_checkpoint_call, QuantizationRecipe.setup_model,
        QuantizationRecipe.prepare_step, Bind.bind, RecipeM.bindImpl,
        Pure.pure, RecipeM.pureImpl, call, liftE, hc, hk, h0, hq, hl]
    · rw [hq] at hp
      simp at hp
      simp [main, QuantizationRecipe.init, QuantizationRecipe.setup,
        QuantizationRecipe.load_checkpoint_call, QuantizationRecipe.setup_model,
        QuantizationRecipe.prepare_step, Bind.bind, RecipeM.bindImpl,
        Pure.pure, RecipeM.pureImpl, call, liftE, hc, hk, h0, hq, hp, hl]
  · intro e ckpt sd m0 m1 m2 hc hk h0 hp hl hv hd
    cases hq : mode_has_qat (get_quantizer_mode cfg.quantizer)
    · rw [hq] at hp hd
      simp only [Bool.false_eq_true, if_false] at hp hd
      have hm01 : m0 = m1 := Except.ok.inj hp
      subst hm01
      simp [main, QuantizationRecipe.init, QuantizationRecipe.setup,
        QuantizationRecipe.load_checkpoint_call, QuantizationRecipe.setup_model,
        QuantizationRecipe.prepare_step, QuantizationRecipe.quantize,
        QuantizationRecipe.quantize_dispatch, Bind.bind, RecipeM.bindImpl,
        Pure.pure, RecipeM.pureImpl, call, liftE, hc, hk, h0, hq, hl, hv, hd]
    · rw [hq] at hp hd
      simp at hp hd
      simp [main, QuantizationRecipe.init, QuantizationRecipe.setup,
        QuantizationRecipe.load_checkpoint_call, QuantizationRecipe.setup_model,
        QuantizationRecipe.prepare_step, QuantizationRecipe.quantize,
        QuantizationRecipe.quantize_dispatch, Bind.bind, RecipeM.bindImpl,
        Pure.pure, RecipeM.pureImpl, call, liftE, hc, hk, h0, hq, hp, hl, hv, hd]
  · intro e he
    exact ⟨errFSInv_main cfg C fs e he,
      fun p d => saveFreeOnError_main cfg C fs e p d he⟩

theorem failures_propagate_unchanged_witness :
    (main demo_cfg demo_collab_fail demo_fs).out = .error "OSError: missing file" :=
  (failures_propagate_unchanged demo_cfg demo_collab_fail demo_fs).1
    "OSError: missing file" rfl

/-! Helpers for Claim C7. -/

theorem mkdir_ok_dirExists (fs fs2 : FS) (p : List String)
    (h : fs.mkdir_exist_ok p = .ok fs2) : fs2.dirExists p = true := by
  unfold FS.mkdir_exist_ok at h
  split at h
  next hex =>
    rw [← Except.ok.inj h]
    exact hex
  next =>
    split at h
    next =>
      rw [← Except.ok.inj h]
      simp [FS.dirExists]
    next => exact Except.noConfusion h

theorem mkdir_of_dirExists (fs : FS) (p : List String) (h : fs.dirExists p = true) :
    fs.mkdir_exist_ok p = .ok fs := by
  unfold FS.mkdir_exist_ok
  rw [if_pos h]

theorem write_file_dirExists (fs : FS) (q : List String) (d : StateDict)
    (p : List String) : (fs.write_file q d).dirExists p = fs.dirExists p := rfl

theorem read_file_write_write (fs : FS) (p q : List String) (d : StateDict) :
    FS.read_file ((fs.write_file p d).write_file p d) q =
      FS.read_file (fs.write_file p d) q := by
  unfold FS.read_file FS.write_file
  cases hpq : (p == q) with
  | true => simp [List.find?, hpq]
  | false => simp [List.find?, hpq]

/-- Claim C7: the recipe is deterministic and idempotent: a run seeds the random
state first (the first event is `set_seed cfg.seed`, emitted during construction
before any model work), and rerunning `main` with the same configuration and the
same deterministic collaborators on the resulting filesystem succeeds with the
identical trace and leaves every file's contents identical. -/
theorem recipe_deterministic (cfg : Config) (C : Collaborators) (fs : FS)
    (h : (main cfg C fs).out = .ok ()) :
    (main cfg C fs).trace.head? = some (Event.set_seed cfg.seed) ∧
    (main cfg C ((main cfg C fs).fs)).out = .ok () ∧
    (main cfg C ((main cfg C fs).fs)).trace = (main cfg C fs).trace ∧
    ∀ q, FS.read_file (main cfg C ((main cfg C fs).fs)).fs q =
      FS.read_file (main cfg C fs).fs q := by
  obtain ⟨ckpt, sd, m0, m1, m2, m3, fname, fs2, hc, hk, h0, hp, hl, hv, hd, hn, hmk⟩ :=
    main_ok_inversion cfg C fs h
  have hex2 : fs2.dirExists cfg.checkpointer.output_dir = true :=
    mkdir_ok_dirExists fs fs2 _ hmk
  have hmk2 : (fs2.write_file (cfg.checkpointer.output_dir ++ [fname]) m3).mkdir_exist_ok
      cfg.checkpointer.output_dir =
      .ok (fs2.write_file (cfg.checkpointer.output_dir ++ [fname]) m3) :=
    mkdir_of_dirExists _ _ (by rw [write_file_dirExists]; exact hex2)
  cases hq : mode_has_qat (get_quantizer_mode cfg.quantizer)
  · rw [hq] at hp hd
    simp only [Bool.false_eq_true, if_false] at hp hd
    have hm01 : m0 = m1 := Except.ok.inj hp
    subst hm01
    have hrun1 := run_main_noqat cfg C fs fs2 ckpt sd m0 m2 m3 fname
      hq hc hk h0 hl hv hd hn hmk
    have hrun2 := run_main_noqat cfg C
      (fs2.write_file (cfg.checkpointer.output_dir ++ [fname]) m3)
      (fs2.write_file (cfg.checkpointer.output_dir ++ [fname]) m3)
      ckpt sd m0 m2 m3 fname hq hc hk h0 hl hv hd hn hmk2
    simp only [hrun1]
    simp only [hrun2]
    refine ⟨by trivial, by trivial, by trivial, fun q => read_file_write_write fs2 _ q m3⟩
  · rw [hq] at hp hd
    simp at hp hd
    have hrun1 := run_main_qat cfg C fs fs2 ckpt sd m0 m1 m2 m3 fname
      hq hc hk h0 hp hl hv hd hn hmk
    have hrun2 := run_main_qat cfg C
      (fs2.write_file (cfg.checkpointer.output_dir ++ [fname]) m3)
      (fs2.write_file (cfg.checkpointer.output_dir ++ [fname]) m3)
      ckpt sd m0 m1 m2 m3 fname hq hc hk h0 hp hl hv hd hn hmk2
    simp only [hrun1]
    simp only [hrun2]
    refine ⟨by trivial, by trivial, by trivial, fun q => read_file_write_write fs2 _ q m3⟩

theorem recipe_deterministic_witness :
    (main demo_cfg demo_collab ((main demo_cfg demo_collab demo_fs).fs)).out =
      .ok () ∧
    (main demo_cfg demo_collab ((main demo_cfg demo_collab demo_fs).fs)).trace =
      (main demo_cfg demo_collab demo_fs).trace :=
  ⟨(recipe_deterministic demo_cfg demo_collab demo_fs (by rfl)).2.1,
   (recipe_deterministic demo_cfg demo_collab demo_fs (by rfl)).2.2.1⟩

/-- Claim C8: when `setup` returns normally, every named parameter of the stored
model has the recipe's dtype; when some loaded parameter's dtype differs, `setup`
raises the validation error instead of returning a state (so no model is assigned). -/
theorem setup_validates_param_dtypes (C : Collaborators) (st : RecipeState) (fs : FS) :
    (∀ st2, (QuantizationRecipe.setup C st fs).out = .ok st2 →
      ∃ m, st2.model = some m ∧ ∀ pr ∈ m, pr.2.dtype = st.dtype) ∧
    (∀ ckpt sd m0 m1 m2,
      C.load_checkpoint = .ok ckpt →
      dict_get ckpt MODEL_KEY = .ok sd →
      C.instantiate_model = .ok m0 →
      (if mode_has_qat st.quantization_mode then C.prepare m0
        else Except.ok m0) = .ok m1 →
      C.load_state_dict m1 sd = .ok m2 →
      (∃ pr ∈ m2, ¬(pr.2.dtype = st.dtype)) →
      (QuantizationRecipe.setup C st fs).out =
        .error "ValueError: unexpected dtype") := by
  constructor
  · intro st2 h2
    obtain ⟨ckpt, sd, m0, m1, m2, hc, hk, h0, hp, hl, hv, hst⟩ :=
      setup_ok_inversion C st fs st2 h2
    refine ⟨m2, by rw [hst], ?_⟩
    intro pr hpr
    unfold validate_expected_param_dtype at hv
    by_cases hall : (m2.all fun p => decide (p.2.dtype = st.dtype)) = true
    · exact of_decide_eq_true (List.all_eq_true.mp hall pr hpr)
    · rw [if_neg hall] at hv
      exact Except.noConfusion hv
  · intro ckpt sd m0 m1 m2 hc hk h0 hp hl hmis
    obtain ⟨pr, hpr, hne⟩ := hmis
    have hallf : ¬((m2.all fun p => decide (p.2.dtype = st.dtype)) = true) := by
      intro hall
      exact hne (of_decide_eq_true (List.all_eq_true.mp hall pr hpr))
    have hv : validate_expected_param_dtype m2 st.dtype =
        .error "ValueError: unexpected dtype" := by
      unfold validate_expected_param_dtype
      rw [if_neg hallf]
    cases hq : mode_has_qat st.quantization_mode
    · rw [hq] at hp
      simp only [Bool.false_eq_true, if_false] at hp
      have hm01 : m0 = m1 := Except.ok.inj hp
      subst hm01
      simp [QuantizationRecipe.setup, QuantizationRecipe.load_checkpoint_call,
        QuantizationRecipe.setup_model, QuantizationRecipe.prepare_step,
        Bind.bind, RecipeM.bindImpl, Pure.pure, RecipeM.pureImpl, call, liftE,
        hc, hk, h0, hq, hl, hv]
    · rw [hq] at hp
      simp at hp
      simp [QuantizationRecipe.setup, QuantizationRecipe.load_checkpoint_call,
        QuantizationRecipe.setup_model, QuantizationRecipe.prepare_step,
        Bind.bind, RecipeM.bindImpl, Pure.pure, RecipeM.pureImpl, call, liftE,
        hc, hk, h0, hq, hp, hl, hv]

theorem setup_validates_param_dtypes_witness :
    (QuantizationRecipe.setup demo_collab_baddtype demo_state0 demo_fs).out =
      .error "ValueError: unexpected dtype" :=
  (setup_validates_param_dtypes demo_collab_baddtype demo_state0 demo_fs).2
    [("model", demo_model)] demo_model demo_model demo_model
    [("weight", { dtype := .bf16, data := 1 })]
    rfl rfl rfl (by rfl) rfl
    ⟨("weight", { dtype := .bf16, data := 1 }), by decide, by decide⟩

/-- Claim C10: `save_checkpoint` creates the output directory when missing, does not
fail when it already exists, and raises `FileNotFoundError` without writing anything
when the directory's parent does not exist. -/
theorem save_checkpoint_mkdir_semantics (cfg : Config) (st : RecipeState) (fs : FS)
    (m : Model) (fname : String)
    (hm : st.model = some m)
    (hn : checkpoint_file_name cfg st.quantization_mode = .ok fname) :
    (fs.dirExists cfg.checkpointer.output_dir = true →
      (QuantizationRecipe.save_checkpoint cfg st fs).out = .ok () ∧
      (QuantizationRecipe.save_checkpoint cfg st fs).fs.dirs = fs.dirs) ∧
    (fs.dirExists cfg.checkpointer.output_dir = false →
      fs.dirExists cfg.checkpointer.output_dir.dropLast = true →
      (QuantizationRecipe.save_checkpoint cfg st fs).out = .ok () ∧
      (QuantizationRecipe.save_checkpoint cfg st fs).fs.dirs =
        cfg.checkpointer.output_dir :: fs.dirs) ∧
    (fs.dirExists cfg.checkpointer.output_dir = false →
      fs.dirExists cfg.checkpointer.output_dir.dropLast = false →
      (QuantizationRecipe.save_checkpoint cfg st fs).out =
        .error "FileNotFoundError" ∧
      (QuantizationRecipe.save_checkpoint cfg st fs).fs = fs) := by
  refine ⟨?_, ?_, ?_⟩
  · intro hex
    rw [run_save_checkpoint cfg st fs fs m fname hm hn (mkdir_of_dirExists fs _ hex)]
    exact ⟨rfl, rfl⟩
  · intro hex hpar
    have hmk : fs.mkdir_exist_ok cfg.checkpointer.output_dir =
        .ok { fs with dirs := cfg.checkpointer.output_dir :: fs.dirs } := by
      simp [FS.mkdir_exist_ok, hex, hpar]
    rw [run_save_checkpoint cfg st fs _ m fname hm hn hmk]
    exact ⟨rfl, rfl⟩
  · intro hex hpar
    have hmk : fs.mkdir_exist_ok cfg.checkpointer.output_dir =
        .error "FileNotFoundError" := by
      simp [FS.mkdir_exist_ok, hex, hpar]
    constructor
    · simp [QuantizationRecipe.save_checkpoint, Bind.bind, RecipeM.bindImpl,
        Pure.pure, RecipeM.pureImpl, call, liftE, mkdir_m, hm, hn, hmk]
    · simp [QuantizationRecipe.save_checkpoint, Bind.bind, RecipeM.bindImpl,
        Pure.pure, RecipeM.pureImpl, call, liftE, mkdir_m, hm, hn, hmk]

theorem save_checkpoint_mkdir_semantics_witness :
    (QuantizationRecipe.save_checkpoint demo_cfg demo_state demo_fs).out = .ok () ∧
    (QuantizationRecipe.save_checkpoint demo_cfg demo_state demo_fs).fs.dirs =
      demo_cfg.checkpointer.output_dir :: demo_fs.dirs :=
  (save_checkpoint_mkdir_semantics demo_cfg demo_state demo_fs demo_model
    "llama2-checkpoint-01-8da4w.ckpt" rfl (by rfl)).2.1 rfl rfl

end Torchtune
